import Mathlib

/-!
Shallow embedding of `src/Whatssap-MCP/whatsapp_claude.py`.

The Python module exposes WhatsApp tool adapters over an external gateway
client.  Each adapter is modelled as a pure Lean function taking the
gateway responses (or response functions) as explicit arguments; a gateway
call that raises a Python exception is modelled by `Except.error msg`
where `msg` is the stringified exception.  Python dictionaries coming
from the gateway are modelled as structures whose optional keys are
`Option` fields (`none` for an absent key); `dict.get(k, d)` becomes
`Option.getD`.  Scalar payload values that the code only ever
interpolates into strings are modelled as `String`.  Strings are treated
at their ASCII fragment: `str.lower` maps `Char.toLower` over the
characters, `str.isdigit` is nonempty-and-all-digits, and `x in y` is a
contiguous-substring test.  A raw-payload field `dataRepr` on each
response models the Python textual rendering of `response.data` that the
code interpolates into failure messages.
-/

deriving instance DecidableEq for Except

/-- Python `needle` being a prefix of `haystack` over character lists
(the base case of the substring test). -/
def charsStartWith : List Char → List Char → Bool
  | _, [] => true
  | [], _ :: _ => false
  | a :: as, b :: bs => a == b && charsStartWith as bs

/-- Python `needle in haystack` for strings: contiguous substring test
over the character lists (the empty needle is contained in everything). -/
def hasSub (hay needle : List Char) : Bool :=
  match hay with
  | [] => charsStartWith [] needle
  | _ :: t => charsStartWith hay needle || hasSub t needle

/-- Recursion core of Python `s.replace(old, new)` over character lists:
left-to-right, non-overlapping, every occurrence replaced.  The `fuel`
argument (instantiated with the length of the scanned list, which only
shrinks) makes the recursion structural so that terms reduce in the
kernel. -/
def pyReplaceCore (pattern repl : List Char) : Nat → List Char → List Char
  | _, [] => []
  | 0, hay => hay
  | Nat.succ n, c :: t =>
    if charsStartWith (c :: t) pattern && !pattern.isEmpty then
      repl ++ pyReplaceCore pattern repl n (List.drop (pattern.length - 1) t)
    else c :: pyReplaceCore pattern repl n t

/-- Python `s.replace(old, new)` for a nonempty `old` (the code only
replaces the literal `"Message"`). -/
def pyReplace (s pattern repl : String) : String :=
  ⟨pyReplaceCore pattern.data repl.data s.data.length s.data⟩

/-- Python `s.lower()` restricted to ASCII: lower-case each character. -/
def pyLower (s : String) : String := ⟨s.data.map Char.toLower⟩

/-- Python `s.isdigit()` restricted to ASCII: `s` is nonempty and every
character is a decimal digit. -/
def pyIsDigit (s : String) : Bool := !s.data.isEmpty && s.data.all Char.isDigit

/-- Contact record returned by `serviceMethods.getContacts`; the keys the
code reads are `id` (always accessed as `contact["id"]`, hence required),
`name`, `contactName` and `type` (read with `.get`, hence optional). -/
structure Contact where
  id : String := ""
  name : Option String := none
  contactName : Option String := none
  type : Option String := none
deriving DecidableEq, Repr

/-- Response of `serviceMethods.getContacts`: HTTP-like status `code`,
parsed contact list `data`, and `dataRepr`, the Python textual form of
the raw payload used in `f"Failed: {response.data}"` interpolations. -/
structure ContactsResp where
  code : Nat
  data : List Contact := []
  dataRepr : String := ""
deriving DecidableEq, Repr

/-- The scan predicate of `resolve_chat_id` line 31:
`contact_identifier.lower() in contact.get("name", "").lower()`. -/
def contactMatches (ref : String) (c : Contact) : Bool :=
  hasSub (pyLower (c.name.getD "")).data (pyLower ref).data

/-- Embedding of `resolve_chat_id` (lines 21-33).  The gateway call
`whatsapp.serviceMethods.getContacts()` is the explicit argument
`getContacts`; an exception raised by it is `Except.error`.  The two
`raise ValueError` sites become `Except.error` with the same message, so
the caller (each adapter) can stringify them uniformly. -/
def resolve_chat_id (ref : String) (getContacts : Except String ContactsResp) :
    Except String String :=
  if pyIsDigit ref then Except.ok (ref ++ "@c.us")
  else if hasSub ref.data "@c.us".data then Except.ok ref
  else
    match getContacts with
    | Except.error e => Except.error e
    | Except.ok resp =>
      if resp.code ≠ 200 then Except.error "Failed to fetch contact list."
      else
        match List.find? (contactMatches ref) resp.data with
        | some c => Except.ok c.id
        | none => Except.error ("Contact \x27" ++ ref ++ "\x27 not found.")

/-- Payload of `msg.get("location", {})`. -/
structure Location where
  nameLocation : Option String := none
  latitude : Option String := none
  longitude : Option String := none
deriving DecidableEq, Repr

/-- Payload of `msg.get("contact", {})` (a shared-contact card). -/
structure ContactShare where
  displayName : Option String := none
deriving DecidableEq, Repr

/-- One entry of `pollMessageData["options"]`. -/
structure PollOption where
  optionName : Option String := none
deriving DecidableEq, Repr

/-- One entry of `pollMessageData["votes"]`; both keys are accessed with
`vote["..."]` (required). -/
structure PollVote where
  optionName : String := ""
  optionVoters : List String := []
deriving DecidableEq, Repr

/-- Payload of `msg.get("pollMessageData", {})`. -/
structure PollData where
  name : Option String := none
  options : List PollOption := []
  votes : List PollVote := []
deriving DecidableEq, Repr

/-- Payload of `msg.get("extendedTextMessage", {})`. -/
structure ExtendedText where
  text : Option String := none
  description : Option String := none
  title : Option String := none
  isForwarded : Bool := false
  forwardingScore : Option Nat := none
deriving DecidableEq, Repr

/-- Payload of `msg.get("quotedMessage", {})`. -/
structure QuotedMsg where
  typeMessage : Option String := none
deriving DecidableEq, Repr

/-- Message record returned by the journal endpoints.  Every key the
three listing tools read with `.get` is an `Option` field (`none` models
an absent key); boolean flags read for truthiness (`isDeleted`,
`isEdited`, `isForwarded`, `sendByApi`) are `Bool` with `false` for an
absent or falsy value.  `timestamp`, coordinates and similar scalars are
kept as `String` since the code only interpolates them. -/
structure Msg where
  timestamp : Option String := none
  typeMessage : Option String := none
  senderName : Option String := none
  senderContactName : Option String := none
  type : Option String := none
  statusMessage : Option String := none
  textMessage : Option String := none
  caption : Option String := none
  downloadUrl : Option String := none
  location : Option Location := none
  contact : Option ContactShare := none
  pollMessageData : Option PollData := none
  extendedTextMessage : Option ExtendedText := none
  quotedMessage : Option QuotedMsg := none
  chatId : Option String := none
  idMessage : Option String := none
  isForwarded : Bool := false
  forwardingScore : Option Nat := none
  isDeleted : Bool := false
  isEdited : Bool := false
  sendByApi : Bool := false
deriving DecidableEq, Repr

/-- The five media message types grouped by the code (lines 150, 221,
279). -/
def mediaTypes : List String :=
  ["imageMessage", "videoMessage", "documentMessage", "audioMessage", "stickerMessage"]

/-- Rendering of one message by `view_messages` (lines 143-180), before
the deleted/edited annotations. -/
def viewBase (msg : Msg) : String :=
  let timestamp := msg.timestamp.getD "Unknown"
  let message_type := msg.typeMessage.getD "Unknown"
  let sender := msg.senderName.getD (if msg.type = some "outgoing" then "You" else "Unknown")
  let status := if msg.type = some "outgoing" then " [" ++ msg.statusMessage.getD "unknown" ++ "]" else ""
  if message_type = "textMessage" then
    "[" ++ timestamp ++ "] " ++ sender ++ status ++ ": " ++ msg.textMessage.getD "No text"
  else if mediaTypes.contains message_type then
    let file_type := pyReplace message_type "Message" ""
    "[" ++ timestamp ++ "] " ++ sender ++ status ++ " sent " ++ file_type ++ ": " ++
      msg.caption.getD "" ++ " (URL: " ++ msg.downloadUrl.getD "No URL" ++ ")"
  else if message_type = "locationMessage" then
    let location := msg.location.getD {}
    let coords := "(" ++ location.latitude.getD "?" ++ ", " ++ location.longitude.getD "?" ++ ")"
    "[" ++ timestamp ++ "] " ++ sender ++ status ++ " shared location: " ++
      location.nameLocation.getD "Unknown location" ++ " " ++ coords
  else if message_type = "contactMessage" then
    "[" ++ timestamp ++ "] " ++ sender ++ status ++ " shared contact: " ++
      (msg.contact.getD {}).displayName.getD "Unknown contact"
  else if message_type = "pollMessage" then
    let poll_data := msg.pollMessageData.getD {}
    let options := String.intercalate ", " (poll_data.options.map (fun o => o.optionName.getD ""))
    "[" ++ timestamp ++ "] " ++ sender ++ status ++ " created poll: " ++
      poll_data.name.getD "Unknown poll" ++ " [Options: " ++ options ++ "]"
  else if message_type = "pollUpdateMessage" then
    let poll_data := msg.pollMessageData.getD {}
    let votes := poll_data.votes.map (fun v => v.optionName ++ ": " ++ toString v.optionVoters.length)
    "[" ++ timestamp ++ "] Poll update for \x27" ++ poll_data.name.getD "Unknown poll" ++
      "\x27 - Votes: " ++ String.intercalate ", " votes
  else if message_type = "quotedMessage" then
    "[" ++ timestamp ++ "] " ++ sender ++ status ++ " replied to " ++
      (msg.quotedMessage.getD {}).typeMessage.getD "unknown" ++ ": " ++
      (msg.extendedTextMessage.getD {}).text.getD "No text"
  else
    "[" ++ timestamp ++ "] " ++ sender ++ status ++ " sent " ++ message_type

/-- One loop iteration of `view_messages` (lines 142-184): the base
rendering followed by the `if`/`elif` deleted/edited annotations — the
`elif` makes them mutually exclusive, with deleted taking precedence. -/
def renderViewMsg (msg : Msg) : String :=
  let base := viewBase msg
  if msg.isDeleted then base ++ " (deleted)"
  else if msg.isEdited then base ++ " (edited)"
  else base

/-- Rendering of one message by `get_last_incoming_messages`
(lines 213-234), before the annotations. -/
def incomingBase (msg : Msg) : String :=
  let timestamp := msg.timestamp.getD "Unknown"
  let sender := msg.senderName.getD (msg.senderContactName.getD "Unknown")
  let chat_id := msg.chatId.getD "Unknown Chat"
  let message_type := msg.typeMessage.getD "Unknown"
  if message_type = "textMessage" then
    "[" ++ timestamp ++ "] " ++ sender ++ " (" ++ chat_id ++ "): " ++ msg.textMessage.getD "No text"
  else if mediaTypes.contains message_type then
    "[" ++ timestamp ++ "] " ++ sender ++ " (" ++ chat_id ++ ") sent " ++
      pyReplace message_type "Message" "" ++ ": " ++ msg.caption.getD "" ++
      " (URL: " ++ msg.downloadUrl.getD "No URL" ++ ")"
  else if message_type = "locationMessage" then
    "[" ++ timestamp ++ "] " ++ sender ++ " (" ++ chat_id ++ ") shared location: " ++
      (msg.location.getD {}).nameLocation.getD "Unknown location"
  else if message_type = "contactMessage" then
    "[" ++ timestamp ++ "] " ++ sender ++ " (" ++ chat_id ++ ") shared contact: " ++
      (msg.contact.getD {}).displayName.getD "Unknown contact"
  else
    "[" ++ timestamp ++ "] " ++ sender ++ " (" ++ chat_id ++ ") sent " ++ message_type

/-- One loop iteration of `get_last_incoming_messages` (lines 213-240):
base rendering, then three independent `if` annotations in fixed order
(forwarded with its count, deleted, edited). -/
def renderIncomingMsg (msg : Msg) : String :=
  let s0 := incomingBase msg
  let s1 := if msg.isForwarded then
      s0 ++ " (forwarded " ++ toString (msg.forwardingScore.getD 1) ++ "x)" else s0
  let s2 := if msg.isDeleted then s1 ++ " (deleted)" else s1
  if msg.isEdited then s2 ++ " (edited)" else s2

/-- Rendering of one message by `get_last_outgoing_messages`
(lines 259-291), before the trailing annotations.  In the
`extendedTextMessage` branch the title/description block and the
extended-data forwarded suffix are part of the base rendering. -/
def outgoingBase (msg : Msg) : String :=
  let timestamp := msg.timestamp.getD "Unknown"
  let message_id := msg.idMessage.getD "Unknown"
  let chat_id := msg.chatId.getD "Unknown Chat"
  let status := msg.statusMessage.getD "unknown"
  let message_type := msg.typeMessage.getD "Unknown"
  if message_type = "extendedTextMessage" then
    let extended_data := msg.extendedTextMessage.getD {}
    let text := extended_data.text.getD (msg.textMessage.getD "No text")
    let description := extended_data.description.getD ""
    let title := extended_data.title.getD ""
    let message_text :=
      "[" ++ timestamp ++ "] ID: " ++ message_id ++ " To " ++ chat_id ++ " [" ++ status ++ "]: " ++ text
    let message_text := if title ≠ "" ∨ description ≠ "" then
        message_text ++ "\nTitle: " ++ title ++ "\nDescription: " ++ description
      else message_text
    if extended_data.isForwarded then
      message_text ++ " (forwarded " ++ toString (extended_data.forwardingScore.getD 1) ++ "x)"
    else message_text
  else if message_type = "textMessage" then
    "[" ++ timestamp ++ "] ID: " ++ message_id ++ " To " ++ chat_id ++ " [" ++ status ++ "]: " ++
      msg.textMessage.getD "No text"
  else if mediaTypes.contains message_type then
    "[" ++ timestamp ++ "] ID: " ++ message_id ++ " To " ++ chat_id ++ " [" ++ status ++ "] sent " ++
      pyReplace message_type "Message" "" ++ ": " ++ msg.caption.getD "" ++
      " (URL: " ++ msg.downloadUrl.getD "No URL" ++ ")"
  else
    "[" ++ timestamp ++ "] ID: " ++ message_id ++ " To " ++ chat_id ++ " [" ++ status ++ "] sent " ++
      message_type

/-- One loop iteration of `get_last_outgoing_messages` (lines 259-297):
base rendering, then three independent `if` annotations in fixed order
(sent via API, deleted, edited). -/
def renderOutgoingMsg (msg : Msg) : String :=
  let s0 := outgoingBase msg
  let s1 := if msg.sendByApi then s0 ++ " (sent via API)" else s0
  let s2 := if msg.isDeleted then s1 ++ " (deleted)" else s1
  if msg.isEdited then s2 ++ " (edited)" else s2

/-- Response of a journal endpoint (`getChatHistory`,
`lastIncomingMessages`, `lastOutgoingMessages`). -/
structure HistoryResp where
  code : Nat
  data : List Msg := []
  dataRepr : String := ""
deriving DecidableEq, Repr

/-- Response of `account.getStateInstance`. -/
structure StateResp where
  code : Nat
  stateInstance : Option String := none
  dataRepr : String := ""
deriving DecidableEq, Repr

/-- Response of `account.getStatusInstance`. -/
structure StatusResp where
  code : Nat
  statusInstance : Option String := none
  subStatusInstance : Option String := none
  dataRepr : String := ""
deriving DecidableEq, Repr

/-- Response of `account.getWaSettings`. -/
structure WaSettingsResp where
  code : Nat
  phone : Option String := none
  avatar : Option String := none
  deviceId : Option String := none
  dataRepr : String := ""
deriving DecidableEq, Repr

/-- Response of `account.getSettings`. -/
structure SettingsResp where
  code : Nat
  webhookUrl : Option String := none
  delaySendMessagesMilliseconds : Option Nat := none
  markIncomingMessagesReaded : Option String := none
  keepOnlineStatus : Option String := none
  incomingWebhook : Option String := none
  outgoingWebhook : Option String := none
  incomingCallWebhook : Option String := none
  pollMessageWebhook : Option String := none
  editedMessageWebhook : Option String := none
  deletedMessageWebhook : Option String := none
  dataRepr : String := ""
deriving DecidableEq, Repr

/-- Response of `sending.sendMessage`. -/
structure SendResp where
  code : Nat
  dataRepr : String := ""
deriving DecidableEq, Repr

/-- Embedding of the `open_session` adapter (lines 35-42). -/
def open_session (gw : Except String StateResp) : String :=
  match gw with
  | Except.error e => "Error: " ++ e
  | Except.ok resp =>
    if resp.code = 200 then "WhatsApp session is active." else "Failed: " ++ resp.dataRepr

/-- Embedding of the `send_message` adapter (lines 44-52): resolve the
contact, send, and stringify any raised exception as `"Error: ..."`. -/
def send_message (contact message : String) (gwContacts : Except String ContactsResp)
    (gwSend : String → String → Except String SendResp) : String :=
  match resolve_chat_id contact gwContacts with
  | Except.error e => "Error: " ++ e
  | Except.ok chat_id =>
    match gwSend chat_id message with
    | Except.error e => "Error: " ++ e
    | Except.ok resp =>
      if resp.code = 200 then "Message sent to " ++ contact ++ "."
      else "Failed: " ++ resp.dataRepr

/-- Python `a or b` for an optional string `a` (`None` and `""` are
falsy), as in the `get_chats` name fallback chain. -/
def orElseStr (a : Option String) (b : String) : String :=
  match a with
  | some s => if s = "" then b else s
  | none => b

/-- Python `l[:n]` for a possibly negative `n`, as in `contacts[:count]`. -/
def pySliceTo (l : List Contact) (n : Int) : List Contact :=
  if 0 ≤ n then l.take n.toNat
  else l.take ((l.length : Int) + n).toNat

/-- One line of the `get_chats` listing (lines 74-77):
`contact.get("name") or contact.get("contactName") or "No name"` followed
by the id and the type tag. -/
def chatLine (c : Contact) : String :=
  orElseStr c.name (orElseStr c.contactName "No name") ++
    " (" ++ c.id ++ ") [" ++ c.type.getD "" ++ "]"

/-- Embedding of the `get_chats` adapter (lines 54-80): optional group
filter, optional count slice, then one line per contact. -/
def get_chats (group : Option Bool) (count : Option Int)
    (gw : Except String ContactsResp) : String :=
  match gw with
  | Except.error e => "Error: " ++ e
  | Except.ok resp =>
    if resp.code ≠ 200 then "Failed: " ++ resp.dataRepr
    else
      let contacts := resp.data
      let contacts := match group with
        | some g => contacts.filter (fun c => (c.type == some "group") == g)
        | none => contacts
      let contacts := match count with
        | some n => pySliceTo contacts n
        | none => contacts
      if contacts.isEmpty then
        "No contacts found. If this persists, try rescanning the QR code or contact support."
      else String.intercalate "\n" (contacts.map chatLine)

/-- Embedding of the `view_messages` adapter (lines 126-188): resolve
the contact, clamp the limit to `[1, 100]`, fetch the history with the
clamped count, reverse the newest-first gateway list, render each
message, and join with blank lines. -/
def view_messages (contact : String) (limit : Int) (gwContacts : Except String ContactsResp)
    (gwHistory : String → Int → Except String HistoryResp) : String :=
  match resolve_chat_id contact gwContacts with
  | Except.error e => "Error: " ++ e
  | Except.ok chat_id =>
    let lim := max 1 (min 100 limit)
    match gwHistory chat_id lim with
    | Except.error e => "Error: " ++ e
    | Except.ok resp =>
      if resp.code ≠ 200 ∨ resp.data = [] then "Failed to get messages: " ++ resp.dataRepr
      else
        let formatted := (resp.data.reverse).map renderViewMsg
        if formatted = [] then "No messages found"
        else String.intercalate "\n\n" formatted

/-- Embedding of the `get_last_incoming_messages` adapter
(lines 202-244): clamp the minutes window to a minimum of 1, fetch,
reverse the newest-first list, render, join. -/
def get_last_incoming_messages (minutes : Int)
    (gw : Int → Except String HistoryResp) : String :=
  match gw (max 1 minutes) with
  | Except.error e => "Error: " ++ e
  | Except.ok resp =>
    if resp.code ≠ 200 ∨ resp.data = [] then "Failed to get messages: " ++ resp.dataRepr
    else
      let formatted := (resp.data.reverse).map renderIncomingMsg
      if formatted = [] then "No messages found"
      else String.intercalate "\n\n" formatted

/-- Embedding of the `get_last_outgoing_messages` adapter
(lines 246-301): clamp the minutes window, fetch, reverse the
newest-first list, render, join. -/
def get_last_outgoing_messages (minutes : Int)
    (gw : Int → Except String HistoryResp) : String :=
  match gw (max 1 minutes) with
  | Except.error e => "Error: " ++ e
  | Except.ok resp =>
    if resp.code ≠ 200 then "Failed to get messages: " ++ resp.dataRepr
    else if resp.data = [] then "No outgoing messages found"
    else String.intercalate "\n\n" ((resp.data.reverse).map renderOutgoingMsg)

/-- Success rendering of `get_my_details` (lines 360-383). -/
def myDetailsRender (state : StateResp) (status : StatusResp) (wa : WaSettingsResp)
    (settings : SettingsResp) : String :=
  "WhatsApp Account Status:\n" ++
  "Phone Number: " ++ wa.phone.getD "Unknown" ++ "\n" ++
  "State: " ++ state.stateInstance.getD "Unknown" ++ "\n" ++
  "Connection: " ++ status.statusInstance.getD "Unknown" ++ "\n" ++
  "Avatar URL: " ++ wa.avatar.getD "No avatar" ++ "\n" ++
  "Device ID: " ++ wa.deviceId.getD "Unknown" ++ "\n\n" ++
  "Account Settings:\n" ++
  "Webhook URL: " ++ settings.webhookUrl.getD "Not set" ++ "\n" ++
  "Message Delay: " ++ toString (settings.delaySendMessagesMilliseconds.getD 0) ++ "ms\n" ++
  "Mark Messages Read: " ++ settings.markIncomingMessagesReaded.getD "no" ++ "\n" ++
  "Keep Online: " ++ settings.keepOnlineStatus.getD "no" ++ "\n" ++
  "Notifications:\n" ++
  "- Incoming: " ++ settings.incomingWebhook.getD "no" ++ "\n" ++
  "- Outgoing: " ++ settings.outgoingWebhook.getD "no" ++ "\n" ++
  "- Calls: " ++ settings.incomingCallWebhook.getD "no" ++ "\n" ++
  "- Polls: " ++ settings.pollMessageWebhook.getD "no" ++ "\n" ++
  "- Edits: " ++ settings.editedMessageWebhook.getD "no" ++ "\n" ++
  "- Deletions: " ++ settings.deletedMessageWebhook.getD "no"

/-- Embedding of the `get_my_details` adapter (lines 343-386).  The four
sub-fetches run under `asyncio.gather`, which joins all of them and
re-raises a raised exception; which exception wins when several raise at
once is timing-dependent, so the embedding fixes the deterministic
argument-order choice.  After the join, the codes are checked jointly
and every non-200 facet is named, in the fixed order of lines 355-358. -/
def get_my_details (state : Except String StateResp) (status : Except String StatusResp)
    (wa : Except String WaSettingsResp) (settings : Except String SettingsResp) : String :=
  match state with
  | Except.error e => "Error: " ++ e
  | Except.ok st =>
  match status with
  | Except.error e => "Error: " ++ e
  | Except.ok stat =>
  match wa with
  | Except.error e => "Error: " ++ e
  | Except.ok w =>
  match settings with
  | Except.error e => "Error: " ++ e
  | Except.ok se =>
  if ¬(st.code = 200 ∧ stat.code = 200 ∧ w.code = 200 ∧ se.code = 200) then
    let errors :=
      (if st.code ≠ 200 then ["state"] else []) ++
      (if stat.code ≠ 200 then ["status"] else []) ++
      (if w.code ≠ 200 then ["WA settings"] else []) ++
      (if se.code ≠ 200 then ["account settings"] else [])
    "Failed to get: " ++ String.intercalate ", " errors
  else myDetailsRender st stat w se

/-- Fixture: newest message of a three-message gateway page. -/
def msgFix1 : Msg :=
  { timestamp := some "2024-01-03 10:00", typeMessage := some "textMessage",
    senderName := some "Ann", textMessage := some "newest" }

/-- Fixture: middle message of a three-message gateway page. -/
def msgFix2 : Msg :=
  { timestamp := some "2024-01-02 10:00", typeMessage := some "textMessage",
    senderName := some "Ann", textMessage := some "middle" }

/-- Fixture: oldest message of a three-message gateway page. -/
def msgFix3 : Msg :=
  { timestamp := some "2024-01-01 10:00", typeMessage := some "textMessage",
    senderName := some "Ann", textMessage := some "oldest" }


/-- Helper: pass-through branch of `resolve_chat_id` (line 25): a
non-digit reference containing `"@c.us"` is returned unchanged, for any
gateway. -/
theorem resolve_contains_cus (ref : String) (gw : Except String ContactsResp)
    (h1 : pyIsDigit ref = false) (h2 : hasSub ref.data "@c.us".data = true) :
    resolve_chat_id ref gw = Except.ok ref := by
  simp [resolve_chat_id, h1, h2]

/-- Helper: the scan branch of `resolve_chat_id` (lines 27-33) on a
successful fetch is exactly a first-match lookup over the contact list. -/
theorem resolve_scan_eq (ref : String) (contacts : List Contact) (r : String)
    (h1 : pyIsDigit ref = false) (h2 : hasSub ref.data "@c.us".data = false) :
    resolve_chat_id ref (Except.ok ⟨200, contacts, r⟩) =
      (match List.find? (contactMatches ref) contacts with
       | some c => Except.ok c.id
       | none => Except.error ("Contact \x27" ++ ref ++ "\x27 not found.")) := by
  simp [resolve_chat_id, h1, h2]

/-- Helper: scan branch when a first match exists. -/
theorem resolve_scan_some (ref : String) (contacts : List Contact) (r : String) (c : Contact)
    (h1 : pyIsDigit ref = false) (h2 : hasSub ref.data "@c.us".data = false)
    (hf : List.find? (contactMatches ref) contacts = some c) :
    resolve_chat_id ref (Except.ok ⟨200, contacts, r⟩) = Except.ok c.id := by
  rw [resolve_scan_eq ref contacts r h1 h2, hf]

/-- Helper: scan branch when no contact matches. -/
theorem resolve_scan_none (ref : String) (contacts : List Contact) (r : String)
    (h1 : pyIsDigit ref = false) (h2 : hasSub ref.data "@c.us".data = false)
    (hf : List.find? (contactMatches ref) contacts = none) :
    resolve_chat_id ref (Except.ok ⟨200, contacts, r⟩) =
      Except.error ("Contact \x27" ++ ref ++ "\x27 not found.") := by
  rw [resolve_scan_eq ref contacts r h1 h2, hf]

/-- Helper: `List.find?` returns the first element satisfying the
predicate: the list splits at the found element and everything before it
fails the predicate. -/
theorem find_first_split {α : Type} (p : α → Bool) :
    ∀ (l : List α) (a : α), l.find? p = some a →
      ∃ l₁ l₂, l = l₁ ++ a :: l₂ ∧ p a = true ∧ ∀ x ∈ l₁, p x = false := by
  intro l
  induction l with
  | nil => intro a h; simp [List.find?] at h
  | cons b t ih =>
    intro a h
    by_cases hb : p b = true
    · rw [List.find?_cons_of_pos _ hb] at h
      cases h
      exact ⟨[], t, rfl, hb, by simp⟩
    · rw [List.find?_cons_of_neg _ hb] at h
      obtain ⟨l₁, l₂, hl, hpa, hall⟩ := ih a h
      refine ⟨b :: l₁, l₂, by rw [hl]; rfl, hpa, ?_⟩
      intro x hx
      rcases List.mem_cons.mp hx with rfl | hx2
      · simpa using hb
      · exact hall x hx2

/-- Helper: a contact whose record lacks the `name` key can only match a
reference whose lower-casing is contained in the empty string, i.e. the
empty reference. -/
theorem contactMatches_nameless (ref : String) (c : Contact) (hn : c.name = none)
    (hr : ref.data ≠ []) : contactMatches ref c = false := by
  unfold contactMatches
  rw [hn]
  show hasSub (pyLower "").data (pyLower ref).data = false
  cases hcase : (pyLower ref).data with
  | nil =>
    exfalso
    exact hr (List.map_eq_nil_iff.mp hcase)
  | cons a t => rfl

/-- Helper: the fetch-failure message is never a not-found message (they
differ at their first character). -/
theorem fetchfail_ne_notfound (s : String) :
    ("Failed to fetch contact list." : String) ≠ "Contact \x27" ++ s ++ "\x27 not found." := by
  intro h
  have hd := congrArg (fun t : String => t.data.head?) h
  have h1 : ("Failed to fetch contact list." : String).data.head? = some 'F' := rfl
  have h2 : ("Contact \x27" ++ s ++ "\x27 not found.").data.head? = some 'C' := rfl
  simp only [h1, h2] at hd
  exact absurd hd (by decide)

/-- C1 counterexample: the reference `"123@g.us"` ends with the group
suffix, yet `resolve_chat_id` does not return it unchanged — it falls
through to the contact-list scan (here returning a not-found error on an
empty list), because line 25 only tests for the substring `"@c.us"`. -/
theorem group_suffix_not_passed_through_cex :
    resolve_chat_id "123@g.us" (Except.ok ⟨200, [], ""⟩) =
      Except.error "Contact \x27123@g.us\x27 not found." ∧
    resolve_chat_id "123@g.us" (Except.ok ⟨200, [], ""⟩) ≠ Except.ok "123@g.us" :=
  ⟨by decide, by decide⟩

/-- C1 (amended): a non-digit reference is returned unchanged, with no
dependence on the gateway, exactly by containing `"@c.us"` as a
substring (anywhere, not only as a suffix); a non-digit reference not
containing `"@c.us"` — including one ending with the group suffix
`"@g.us"` — instead goes through the contact-list scan. -/
theorem resolve_passthrough_iff_contains_cus :
    (∀ (ref : String) (gw gw' : Except String ContactsResp),
      pyIsDigit ref = false → hasSub ref.data "@c.us".data = true →
      resolve_chat_id ref gw = Except.ok ref ∧
      resolve_chat_id ref gw = resolve_chat_id ref gw') ∧
    (∀ (ref : String) (contacts : List Contact) (r : String),
      pyIsDigit ref = false → hasSub ref.data "@c.us".data = false →
      resolve_chat_id ref (Except.ok ⟨200, contacts, r⟩) =
        (match List.find? (contactMatches ref) contacts with
         | some c => Except.ok c.id
         | none => Except.error ("Contact \x27" ++ ref ++ "\x27 not found."))) := by
  constructor
  · intro ref gw gw' h1 h2
    refine ⟨resolve_contains_cus ref gw h1 h2, ?_⟩
    rw [resolve_contains_cus ref gw h1 h2, resolve_contains_cus ref gw' h1 h2]
  · intro ref contacts r h1 h2
    exact resolve_scan_eq ref contacts r h1 h2

/-- C1 witness: a reference containing `"@c.us"` passes through even when
the gateway is down, and a `"@g.us"`-suffixed reference is resolved by
the name scan instead. -/
theorem resolve_passthrough_iff_contains_cus_witness :
    resolve_chat_id "abc@c.us" (Except.error "network down") = Except.ok "abc@c.us" ∧
    resolve_chat_id "123@g.us"
        (Except.ok ⟨200, [⟨"9@g.us", some "Family 123@g.us", none, some "group"⟩], ""⟩) =
      Except.ok "9@g.us" := by
  constructor
  · exact (resolve_passthrough_iff_contains_cus.1 "abc@c.us" (Except.error "network down")
      (Except.error "network down") (by decide) (by decide)).1
  · rw [resolve_passthrough_iff_contains_cus.2 "123@g.us"
      [⟨"9@g.us", some "Family 123@g.us", none, some "group"⟩] "" (by decide) (by decide)]
    decide

/-- C4 counterexample: `"a@c.usb"` is non-digit and does not end with
either chat suffix, so by the claim it should be scanned against the
contact list (and yield a not-found error on an empty list); the code
instead passes it through unchanged because it contains `"@c.us"` as a
substring. -/
theorem name_scan_skipped_for_embedded_cus_cex :
    resolve_chat_id "a@c.usb" (Except.ok ⟨200, [], ""⟩) = Except.ok "a@c.usb" ∧
    resolve_chat_id "a@c.usb" (Except.ok ⟨200, [], ""⟩) ≠
      Except.error "Contact \x27a@c.usb\x27 not found." :=
  ⟨by decide, by decide⟩

/-- C4 (amended): for a non-digit reference not containing `"@c.us"` as
a substring and a contact list fetched with success status,
`resolve_chat_id` returns the id of the first contact in provider order
whose name contains the reference case-insensitively: a successful
result is always the first match, whenever any contact matches the
result IS the success carrying the first match in provider order, and
when no contact matches resolution fails with a not-found error naming
the original reference. -/
theorem resolve_first_match_in_provider_order :
    ∀ (ref : String) (contacts : List Contact) (r : String),
      pyIsDigit ref = false → hasSub ref.data "@c.us".data = false →
      (∀ cid, resolve_chat_id ref (Except.ok ⟨200, contacts, r⟩) = Except.ok cid →
        ∃ l₁ c l₂, contacts = l₁ ++ c :: l₂ ∧ contactMatches ref c = true ∧
          cid = c.id ∧ ∀ c2 ∈ l₁, contactMatches ref c2 = false) ∧
      ((∃ c ∈ contacts, contactMatches ref c = true) →
        ∃ l₁ c l₂, contacts = l₁ ++ c :: l₂ ∧ contactMatches ref c = true ∧
          (∀ c2 ∈ l₁, contactMatches ref c2 = false) ∧
          resolve_chat_id ref (Except.ok ⟨200, contacts, r⟩) = Except.ok c.id) ∧
      ((∀ c ∈ contacts, contactMatches ref c = false) →
        resolve_chat_id ref (Except.ok ⟨200, contacts, r⟩) =
          Except.error ("Contact \x27" ++ ref ++ "\x27 not found.")) := by
  intro ref contacts r h1 h2
  refine ⟨?_, ?_, ?_⟩
  · intro cid h
    cases hf : List.find? (contactMatches ref) contacts with
    | none =>
      rw [resolve_scan_none ref contacts r h1 h2 hf] at h
      exact absurd h (by simp)
    | some c =>
      rw [resolve_scan_some ref contacts r c h1 h2 hf] at h
      injection h with h
      obtain ⟨l₁, l₂, hl, hp, hall⟩ := find_first_split (contactMatches ref) contacts c hf
      exact ⟨l₁, c, l₂, hl, hp, h.symm, hall⟩
  · intro hex
    cases hf : List.find? (contactMatches ref) contacts with
    | none =>
      exfalso
      obtain ⟨c, hc, hmatch⟩ := hex
      have := List.find?_eq_none.mp hf c hc
      rw [hmatch] at this
      exact this rfl
    | some c =>
      obtain ⟨l₁, l₂, hl, hp, hall⟩ := find_first_split (contactMatches ref) contacts c hf
      exact ⟨l₁, c, l₂, hl, hp, hall, resolve_scan_some ref contacts r c h1 h2 hf⟩
  · intro hnone
    apply resolve_scan_none ref contacts r h1 h2
    rw [List.find?_eq_none]
    intro x hx
    simp [hnone x hx]

/-- C4 witness: on a list where the second and third contacts both
match `"bob"`, the scan succeeds with the first match in provider order
("Bob", id `2@c.us`, everything before it failing the match), and with
a single non-matching contact it reports the original reference as not
found. -/
theorem resolve_first_match_in_provider_order_witness :
    (∃ l₁ c l₂,
      ([⟨"1@c.us", some "Alice", none, none⟩, ⟨"2@c.us", some "Bob", none, none⟩,
        ⟨"3@c.us", some "Bobby", none, none⟩] : List Contact) = l₁ ++ c :: l₂ ∧
      contactMatches "bob" c = true ∧
      (∀ c2 ∈ l₁, contactMatches "bob" c2 = false) ∧
      resolve_chat_id "bob" (Except.ok ⟨200,
        [⟨"1@c.us", some "Alice", none, none⟩, ⟨"2@c.us", some "Bob", none, none⟩,
         ⟨"3@c.us", some "Bobby", none, none⟩], ""⟩) = Except.ok c.id) ∧
    resolve_chat_id "zz" (Except.ok ⟨200, [⟨"1@c.us", some "Alice", none, none⟩], ""⟩) =
      Except.error "Contact \x27zz\x27 not found." := by
  constructor
  · exact (resolve_first_match_in_provider_order "bob"
      [⟨"1@c.us", some "Alice", none, none⟩, ⟨"2@c.us", some "Bob", none, none⟩,
       ⟨"3@c.us", some "Bobby", none, none⟩] "" (by decide) (by decide)).2.1
      ⟨⟨"2@c.us", some "Bob", none, none⟩, by decide, by decide⟩
  · exact (resolve_first_match_in_provider_order "zz"
      [⟨"1@c.us", some "Alice", none, none⟩] "" (by decide) (by decide)).2.2 (by decide)

/-- C5: an all-digit reference resolves to `<digits>@c.us` for every
gateway value, hence independently of the contact list (no network
call). -/
theorem resolve_digits_no_network :
    ∀ (ref : String) (gw gw' : Except String ContactsResp), pyIsDigit ref = true →
      resolve_chat_id ref gw = Except.ok (ref ++ "@c.us") ∧
      resolve_chat_id ref gw = resolve_chat_id ref gw' := by
  intro ref gw gw' h
  have e1 : resolve_chat_id ref gw = Except.ok (ref ++ "@c.us") := by
    simp [resolve_chat_id, h]
  have e2 : resolve_chat_id ref gw' = Except.ok (ref ++ "@c.us") := by
    simp [resolve_chat_id, h]
  exact ⟨e1, e1.trans e2.symm⟩

/-- C5 witness: a digit-only reference resolves even when the gateway
raises. -/
theorem resolve_digits_no_network_witness :
    resolve_chat_id "4915550000" (Except.error "network down") = Except.ok "4915550000@c.us" :=
  (resolve_digits_no_network "4915550000" (Except.error "network down")
    (Except.ok ⟨500, [], ""⟩) (by decide)).1

/-- C9 counterexample: `"x@c.usy"` is non-digit and does not end with
either chat suffix, and the contact-list fetch returns status 500; by
the claim resolution should fail with the fetch-failure error, but the
code passes the reference through unchanged (line 25 fires on the
embedded `"@c.us"`), never reaching the fetch. -/
theorem fetch_failure_skipped_for_embedded_cus_cex :
    resolve_chat_id "x@c.usy" (Except.ok ⟨500, [], ""⟩) = Except.ok "x@c.usy" ∧
    resolve_chat_id "x@c.usy" (Except.ok ⟨500, [], ""⟩) ≠
      Except.error "Failed to fetch contact list." :=
  ⟨by decide, by decide⟩

/-- C9 (amended): for a non-digit reference not containing `"@c.us"`,
if the contact-list fetch returns a non-success status, `resolve_chat_id`
fails with the fetch-failure error before scanning any contact — the
result is the same for every contact list carried by the failed
response — and no not-found error is produced. -/
theorem resolve_fetch_failure_error :
    ∀ (ref : String) (resp : ContactsResp),
      pyIsDigit ref = false → hasSub ref.data "@c.us".data = false →
      resp.code ≠ 200 →
      resolve_chat_id ref (Except.ok resp) = Except.error "Failed to fetch contact list." ∧
      (∀ (data2 : List Contact) (r2 : String),
        resolve_chat_id ref (Except.ok ⟨resp.code, data2, r2⟩) =
          Except.error "Failed to fetch contact list.") ∧
      (∀ s, resolve_chat_id ref (Except.ok resp) ≠
        Except.error ("Contact \x27" ++ s ++ "\x27 not found.")) := by
  intro ref resp h1 h2 h3
  have e : resolve_chat_id ref (Except.ok resp) =
      Except.error "Failed to fetch contact list." := by
    simp [resolve_chat_id, h1, h2, h3]
  refine ⟨e, ?_, ?_⟩
  · intro data2 r2
    simp [resolve_chat_id, h1, h2, h3]
  · intro s h
    rw [e] at h
    injection h with hmsg
    exact fetchfail_ne_notfound s hmsg

/-- C9 witness: even with a contact named exactly like the reference in
the failed payload, the fetch failure preempts the scan. -/
theorem resolve_fetch_failure_error_witness :
    resolve_chat_id "Ann" (Except.ok ⟨500, [⟨"1@c.us", some "Ann", none, none⟩], "err"⟩) =
      Except.error "Failed to fetch contact list." :=
  (resolve_fetch_failure_error "Ann" ⟨500, [⟨"1@c.us", some "Ann", none, none⟩], "err"⟩
    (by decide) (by decide) (by decide)).1

/-- C10 counterexample: with the empty reference, `resolve_chat_id`
selects the first contact even though its record lacks the `name` key
(Python containment of the empty string in the empty string holds), so a
nameless contact can be selected. -/
theorem empty_ref_selects_nameless_contact_cex :
    resolve_chat_id "" (Except.ok ⟨200, [⟨"7@c.us", none, some "Bob", some "user"⟩], ""⟩) =
      Except.ok "7@c.us" ∧
    (⟨"7@c.us", none, some "Bob", some "user"⟩ : Contact).name = none :=
  ⟨by decide, rfl⟩

/-- C10 (amended): for every nonempty reference, the name scan matches
only the `name` field: a contact record lacking the `name` key is never
selected, whatever its other name fields, and any successful scan result
comes from a contact that has a `name` key and matched on it; yet
`get_chats` displays the `contactName` of such a nameless contact as its
name. -/
theorem resolve_matches_name_field_only :
    ∀ (ref : String) (c : Contact) (contacts : List Contact) (r : String),
      ref.data ≠ [] → c.name = none →
      (List.find? (contactMatches ref) contacts ≠ some c) ∧
      (pyIsDigit ref = false → hasSub ref.data "@c.us".data = false →
        ∀ cid, resolve_chat_id ref (Except.ok ⟨200, contacts, r⟩) = Except.ok cid →
          ∃ c2, List.find? (contactMatches ref) contacts = some c2 ∧ cid = c2.id ∧
            contactMatches ref c2 = true ∧ c2.name ≠ none) ∧
      (∀ s, c.contactName = some s → s ≠ "" →
        chatLine c = s ++ " (" ++ c.id ++ ") [" ++ c.type.getD "" ++ "]") := by
  intro ref c contacts r hr hn
  refine ⟨?_, ?_, ?_⟩
  · intro hf
    have ht := List.find?_some hf
    rw [contactMatches_nameless ref c hn hr] at ht
    exact absurd ht (by decide)
  · intro h1 h2 cid h
    cases hf : List.find? (contactMatches ref) contacts with
    | none =>
      rw [resolve_scan_none ref contacts r h1 h2 hf] at h
      exact absurd h (by simp)
    | some c2 =>
      rw [resolve_scan_some ref contacts r c2 h1 h2 hf] at h
      injection h with h
      refine ⟨c2, rfl, h.symm, List.find?_some hf, ?_⟩
      intro hn2
      have ht := List.find?_some hf
      rw [contactMatches_nameless ref c2 hn2 hr] at ht
      exact absurd ht (by decide)
  · intro s hs hne
    simp [chatLine, orElseStr, hn, hs, hne]

/-- C10 witness: a nameless contact whose `contactName` is `"Bob"` is
not selected by the scan for `"bob"`, yet `get_chats` renders its line
with `"Bob"` as the display name. -/
theorem resolve_matches_name_field_only_witness :
    (List.find? (contactMatches "bob") [⟨"7@c.us", none, some "Bob", some "user"⟩] ≠
      some ⟨"7@c.us", none, some "Bob", some "user"⟩) ∧
    chatLine ⟨"7@c.us", none, some "Bob", some "user"⟩ = "Bob (7@c.us) [user]" := by
  have h := resolve_matches_name_field_only "bob" ⟨"7@c.us", none, some "Bob", some "user"⟩
    [⟨"7@c.us", none, some "Bob", some "user"⟩] "" (by decide) rfl
  exact ⟨h.1, h.2.2 "Bob" rfl (by decide)⟩

/-- C2: whenever the gateway returns a (newest-first) nonempty message
page with success status, each of the three listing tools renders
exactly the reversed gateway list (oldest first) joined with blank
lines. -/
theorem listing_tools_render_reversed :
    ∀ (contact : String) (limit minutes : Int) (gwC : Except String ContactsResp)
      (gwH : String → Int → Except String HistoryResp)
      (gwI gwO : Int → Except String HistoryResp)
      (chat : String) (respV respI respO : HistoryResp),
      resolve_chat_id contact gwC = Except.ok chat →
      gwH chat (max 1 (min 100 limit)) = Except.ok respV →
      respV.code = 200 → respV.data ≠ [] →
      gwI (max 1 minutes) = Except.ok respI →
      respI.code = 200 → respI.data ≠ [] →
      gwO (max 1 minutes) = Except.ok respO →
      respO.code = 200 → respO.data ≠ [] →
      view_messages contact limit gwC gwH =
        String.intercalate "\n\n" ((respV.data.map renderViewMsg).reverse) ∧
      get_last_incoming_messages minutes gwI =
        String.intercalate "\n\n" ((respI.data.map renderIncomingMsg).reverse) ∧
      get_last_outgoing_messages minutes gwO =
        String.intercalate "\n\n" ((respO.data.map renderOutgoingMsg).reverse) := by
  intro contact limit minutes gwC gwH gwI gwO chat respV respI respO
  intro hres hH hVc hVd hI hIc hId hO hOc hOd
  refine ⟨?_, ?_, ?_⟩
  · simp [view_messages, hres, hH, hVc, hVd, List.map_reverse]
  · simp [get_last_incoming_messages, hI, hIc, hId, List.map_reverse]
  · simp [get_last_outgoing_messages, hO, hOc, hOd, List.map_reverse]

/-- C2 witness: a three-message newest-first fixture is rendered
oldest-first by all three tools. -/
theorem listing_tools_render_reversed_witness :
    view_messages "123" 3 (Except.error "unused")
        (fun _ _ => Except.ok ⟨200, [msgFix1, msgFix2, msgFix3], ""⟩) =
      String.intercalate "\n\n" (([msgFix1, msgFix2, msgFix3].map renderViewMsg).reverse) ∧
    get_last_incoming_messages 60 (fun _ => Except.ok ⟨200, [msgFix1, msgFix2, msgFix3], ""⟩) =
      String.intercalate "\n\n" (([msgFix1, msgFix2, msgFix3].map renderIncomingMsg).reverse) ∧
    get_last_outgoing_messages 60 (fun _ => Except.ok ⟨200, [msgFix1, msgFix2, msgFix3], ""⟩) =
      String.intercalate "\n\n" (([msgFix1, msgFix2, msgFix3].map renderOutgoingMsg).reverse) :=
  listing_tools_render_reversed "123" 3 60 (Except.error "unused")
    (fun _ _ => Except.ok ⟨200, [msgFix1, msgFix2, msgFix3], ""⟩)
    (fun _ => Except.ok ⟨200, [msgFix1, msgFix2, msgFix3], ""⟩)
    (fun _ => Except.ok ⟨200, [msgFix1, msgFix2, msgFix3], ""⟩)
    "123@c.us" ⟨200, [msgFix1, msgFix2, msgFix3], ""⟩ ⟨200, [msgFix1, msgFix2, msgFix3], ""⟩
    ⟨200, [msgFix1, msgFix2, msgFix3], ""⟩
    (by decide) rfl rfl (by decide) rfl rfl (by decide) rfl rfl (by decide)

/-- C6: the limit of `view_messages` is clamped into `[1, 100]` before
any use (including the gateway call), so limit 500 behaves identically
to limit 100 and limit 0 identically to limit 1, for every contact and
gateway state. -/
theorem view_messages_limit_clamped :
    ∀ (contact : String) (gwC : Except String ContactsResp)
      (gwH : String → Int → Except String HistoryResp),
      view_messages contact 500 gwC gwH = view_messages contact 100 gwC gwH ∧
      view_messages contact 0 gwC gwH = view_messages contact 1 gwC gwH := by
  intro contact gwC gwH
  constructor
  · show view_messages contact 500 gwC gwH = view_messages contact 100 gwC gwH
    simp only [view_messages]
    norm_num
  · show view_messages contact 0 gwC gwH = view_messages contact 1 gwC gwH
    simp only [view_messages]
    norm_num

/-- C3: every modelled adapter, given a gateway call that raises an
exception `e`, returns the single string `"Error: " ++ e` — the
stringified exception prefixed with `"Error:"` — rather than
propagating the fault (the adapters are total functions into `String`,
so no exception crosses the tool boundary). -/
theorem adapters_return_error_string_on_exception :
    ∀ (e message : String) (limit minutes : Int) (group : Option Bool) (count : Option Int)
      (gwC : Except String ContactsResp) (gwS : String → String → Except String SendResp)
      (stat : Except String StatusResp) (wa : Except String WaSettingsResp)
      (se : Except String SettingsResp),
      open_session (Except.error e) = "Error: " ++ e ∧
      send_message "123" message gwC (fun _ _ => Except.error e) = "Error: " ++ e ∧
      send_message "Ann" message (Except.error e) gwS = "Error: " ++ e ∧
      get_chats group count (Except.error e) = "Error: " ++ e ∧
      view_messages "123" limit gwC (fun _ _ => Except.error e) = "Error: " ++ e ∧
      get_last_incoming_messages minutes (fun _ => Except.error e) = "Error: " ++ e ∧
      get_last_outgoing_messages minutes (fun _ => Except.error e) = "Error: " ++ e ∧
      get_my_details (Except.error e) stat wa se = "Error: " ++ e := by
  intro e message limit minutes group count gwC gwS stat wa se
  have hd : resolve_chat_id "123" gwC = Except.ok "123@c.us" := by
    simp [resolve_chat_id, show pyIsDigit "123" = true from rfl]
  have ha : resolve_chat_id "Ann" (Except.error e) = Except.error e := by
    simp [resolve_chat_id, show pyIsDigit "Ann" = false from rfl,
      show hasSub "Ann".data "@c.us".data = false from rfl]
  refine ⟨rfl, ?_, ?_, rfl, ?_, rfl, rfl, rfl⟩
  · simp [send_message, hd]
  · simp [send_message, ha]
  · simp [view_messages, hd]

/-- C7 counterexample: in `view_messages` a message that is both deleted
and edited carries only the deleted suffix — the `elif` on line 183
makes the two annotations mutually exclusive, contradicting the claim
that they are appended independently. -/
theorem view_deleted_edited_exclusive_cex :
    renderViewMsg { isDeleted := true, isEdited := true } =
      "[Unknown] Unknown sent Unknown (deleted)" ∧
    hasSub (renderViewMsg { isDeleted := true, isEdited := true }).data " (edited)".data =
      false :=
  ⟨by decide, by decide⟩

/-- C7 (amended): in `get_last_incoming_messages` (forwarded with its
count, deleted, edited) and in `get_last_outgoing_messages` (sent via
API, deleted, edited) the annotations are appended independently in a
fixed order; in `view_messages` only deleted and edited are annotated
and they are mutually exclusive, deleted taking precedence. -/
theorem message_annotations_fixed_order :
    ∀ m : Msg,
      renderIncomingMsg m = incomingBase m ++
        (if m.isForwarded then
          " (forwarded " ++ toString (m.forwardingScore.getD 1) ++ "x)" else "") ++
        (if m.isDeleted then " (deleted)" else "") ++
        (if m.isEdited then " (edited)" else "") ∧
      renderOutgoingMsg m = outgoingBase m ++
        (if m.sendByApi then " (sent via API)" else "") ++
        (if m.isDeleted then " (deleted)" else "") ++
        (if m.isEdited then " (edited)" else "") ∧
      renderViewMsg m = viewBase m ++
        (if m.isDeleted then " (deleted)" else if m.isEdited then " (edited)" else "") := by
  intro m
  refine ⟨?_, ?_, ?_⟩
  · unfold renderIncomingMsg
    cases hF : m.isForwarded <;> cases hD : m.isDeleted <;> cases hE : m.isEdited <;>
      simp [hF, hD, hE, String.append_assoc, String.append_empty]
  · unfold renderOutgoingMsg
    cases hA : m.sendByApi <;> cases hD : m.isDeleted <;> cases hE : m.isEdited <;>
      simp [hA, hD, hE, String.append_assoc, String.append_empty]
  · unfold renderViewMsg
    cases hD : m.isDeleted <;> cases hE : m.isEdited <;>
      simp [hD, hE, String.append_empty]

/-- C8: after the four sub-fetches of `get_my_details` are joined, if
all four return non-success status the result names all four facets in
fixed order; if exactly one returns non-success the result names only
that facet; and whenever any facet fails the result is a failure report
naming a nonempty list of facets, never a partial success rendering. -/
theorem my_details_names_failing_facets :
    ∀ (st : StateResp) (stat : StatusResp) (w : WaSettingsResp) (se : SettingsResp),
      (st.code ≠ 200 → stat.code ≠ 200 → w.code ≠ 200 → se.code ≠ 200 →
        get_my_details (Except.ok st) (Except.ok stat) (Except.ok w) (Except.ok se) =
          "Failed to get: state, status, WA settings, account settings") ∧
      (st.code ≠ 200 → stat.code = 200 → w.code = 200 → se.code = 200 →
        get_my_details (Except.ok st) (Except.ok stat) (Except.ok w) (Except.ok se) =
          "Failed to get: state") ∧
      (st.code = 200 → stat.code ≠ 200 → w.code = 200 → se.code = 200 →
        get_my_details (Except.ok st) (Except.ok stat) (Except.ok w) (Except.ok se) =
          "Failed to get: status") ∧
      (st.code = 200 → stat.code = 200 → w.code ≠ 200 → se.code = 200 →
        get_my_details (Except.ok st) (Except.ok stat) (Except.ok w) (Except.ok se) =
          "Failed to get: WA settings") ∧
      (st.code = 200 → stat.code = 200 → w.code = 200 → se.code ≠ 200 →
        get_my_details (Except.ok st) (Except.ok stat) (Except.ok w) (Except.ok se) =
          "Failed to get: account settings") ∧
      ((st.code ≠ 200 ∨ stat.code ≠ 200 ∨ w.code ≠ 200 ∨ se.code ≠ 200) →
        ∃ facets, facets ≠ [] ∧
          get_my_details (Except.ok st) (Except.ok stat) (Except.ok w) (Except.ok se) =
            "Failed to get: " ++ String.intercalate ", " facets) := by
  intro st stat w se
  refine ⟨?_, ?_, ?_, ?_, ?_, ?_⟩
  · intro h1 h2 h3 h4
    simp [get_my_details, h1, h2, h3, h4]
    rfl
  · intro h1 h2 h3 h4
    simp [get_my_details, h1, h2, h3, h4]
    rfl
  · intro h1 h2 h3 h4
    simp [get_my_details, h1, h2, h3, h4]
    rfl
  · intro h1 h2 h3 h4
    simp [get_my_details, h1, h2, h3, h4]
    rfl
  · intro h1 h2 h3 h4
    simp [get_my_details, h1, h2, h3, h4]
    rfl
  · intro h
    have hcond : ¬(st.code = 200 ∧ stat.code = 200 ∧ w.code = 200 ∧ se.code = 200) := by
      rcases h with h | h | h | h <;> tauto
    refine ⟨(if st.code ≠ 200 then ["state"] else []) ++
      (if stat.code ≠ 200 then ["status"] else []) ++
      (if w.code ≠ 200 then ["WA settings"] else []) ++
      (if se.code ≠ 200 then ["account settings"] else []), ?_, ?_⟩
    · rcases h with h | h | h | h <;> simp [h, List.append_eq_nil]
    · simp [get_my_details, hcond]

/-- C8 witness: with all four sub-fetches at status 500 all four facets
are named; with only the status fetch at 500 only that facet is named. -/
theorem my_details_names_failing_facets_witness :
    get_my_details (Except.ok { code := 500 }) (Except.ok { code := 500 })
        (Except.ok { code := 500 }) (Except.ok { code := 500 }) =
      "Failed to get: state, status, WA settings, account settings" ∧
    get_my_details (Except.ok { code := 200 }) (Except.ok { code := 500 })
        (Except.ok { code := 200 }) (Except.ok { code := 200 }) =
      "Failed to get: status" := by
  constructor
  · exact (my_details_names_failing_facets { code := 500 } { code := 500 } { code := 500 }
      { code := 500 }).1 (by decide) (by decide) (by decide) (by decide)
  · exact (my_details_names_failing_facets { code := 200 } { code := 500 } { code := 200 }
      { code := 200 }).2.2.1 rfl (by decide) rfl rfl
